import Mathlib

/-!
Verification development for the `visa_service` repository (`src/main.py`).

The embedding below translates the parts of `main.py` that the claims are
about: the account store (`AccountDB`), the console-based rate-limit
detector (`ConsoleMonitor`), the retrying click helper (`safe_click`), the
rate-limit handler (`handle_429_error`), the login loop (`login`), the
per-account probe wrapper (`check_account`) and the scheduler cycle
(`run_check`).

Modelling conventions:
  * timestamps are natural numbers counted in minutes (the source stores
    `"%Y-%m-%d %H:%M:%S"` TEXT values whose lexicographic order coincides
    with chronological order, and adds `timedelta(minutes=...)`);
  * SQL `NULL` columns become `Option` fields, and SQL three-valued logic
    is modelled explicitly: a comparison with `NULL` is not satisfied;
  * external effects (Telegram notifications, `save_error_page` captures)
    are recorded in an explicit `CheckerState`;
  * outcomes of the browser environment (page text reads, navigation
    responses, thrown Playwright errors, element lookups) are inputs to
    the embedded functions, one per loop attempt.
-/

/-- A row of the `accounts` table (schema in `AccountDB._create_table`,
lines 41-57).  `last_check` and `next_check` are nullable TIMESTAMP
columns, modelled as `Option Nat` (minutes). -/
structure Account where
  id : Nat
  login_url : String
  password : String
  location : String
  last_check : Option Nat
  next_check : Option Nat
  is_blocked : Bool
deriving Repr, DecidableEq

/-- Character-list version of Python `s.startswith(pat)`, used to build
the substring test. -/
def startsWithChars : List Char → List Char → Bool
  | [], _ => true
  | _ :: _, [] => false
  | a :: as, b :: bs => (a == b) && startsWithChars as bs

/-- Character-list version of the Python substring test `pat in s`. -/
def containsChars (pat : List Char) : List Char → Bool
  | [] => startsWithChars pat []
  | b :: bs => startsWithChars pat (b :: bs) || containsChars pat bs

/-- Python's `pat in s` on strings: `pat` occurs as a contiguous substring
of `s`. -/
def strContains (s pat : String) : Bool :=
  containsChars pat.data s.data

/-- The row filter of `get_active_accounts` (line 75 of `main.py`):
`WHERE is_blocked = FALSE OR next_check <= now`.  SQLite three-valued
logic makes `next_check <= now` unsatisfied when `next_check` is NULL, so
a NULL `next_check` passes the filter only through the first disjunct. -/
def sqlEligible (r : Account) (now : Nat) : Bool :=
  (!r.is_blocked) || (match r.next_check with
    | none => false
    | some t => decide (t ≤ now))

/-- Eligibility as worded by the spec: "an account is eligible for probing
iff `is_blocked` is false OR `next_check` is in the past", together with
"`next_check`: ... null means eligible immediately".  Kept separate from
`sqlEligible` (which is translated from the SQL) so the two can be
compared. -/
def spec_eligible (r : Account) (now : Nat) : Bool :=
  (!r.is_blocked) || (match r.next_check with
    | none => true
    | some t => decide (t ≤ now))

/-- Comparison of two nullable `last_check` keys under SQLite
`ORDER BY last_check ASC`: NULL sorts before every value. -/
def lastCheckLeB : Option Nat → Option Nat → Bool
  | none, _ => true
  | some _, none => false
  | some x, some y => decide (x ≤ y)

/-- The `ORDER BY last_check ASC` relation on rows (line 76). -/
def lastCheckRel (a b : Account) : Prop :=
  lastCheckLeB a.last_check b.last_check = true

instance : DecidableRel lastCheckRel := fun a b =>
  inferInstanceAs (Decidable (lastCheckLeB a.last_check b.last_check = true))

instance : IsTotal Account lastCheckRel := by
  constructor
  intro a b
  unfold lastCheckRel
  rcases a.last_check with _ | x <;> rcases b.last_check with _ | y <;>
    simp [lastCheckLeB]
  exact Nat.le_total x y

instance : IsTrans Account lastCheckRel := by
  constructor
  intro a b c
  unfold lastCheckRel
  rcases a.last_check with _ | x <;> rcases b.last_check with _ | y <;>
    rcases c.last_check with _ | z <;> simp [lastCheckLeB]
  omega

/-- `AccountDB.get_active_accounts` (lines 67-94): SELECT the rows passing
the `WHERE` clause, ordered by `last_check` ascending (NULLs first). -/
def get_active_accounts (rows : List Account) (now : Nat) : List Account :=
  List.insertionSort lastCheckRel (rows.filter (fun r => sqlEligible r now))

/-- An INSERT statement reduced to what SQLite checks at prepare time: the
named column list and the number of `?` value slots. -/
structure InsertStmt where
  columns : List String
  value_slots : Nat
deriving Repr

/-- The INSERT statement of `AccountDB.add_account` (line 63), verbatim:
`INSERT INTO accounts (login_url, password, location) VALUES (?, ?, ?, ?)`
— three named columns, four placeholders. -/
def add_account_stmt : InsertStmt :=
  { columns := [ "login_url", "password", "location" ], value_slots := 4 }

/-- The error SQLite raises when a VALUES row length differs from the
column list length. -/
def sql_insert_mismatch_msg (stmt : InsertStmt) : String :=
  toString stmt.value_slots ++ " values for " ++
    toString stmt.columns.length ++ " columns"

/-- The row `add_account` intends to create: schema defaults give NULL
`last_check`, NULL `next_check` and `is_blocked = FALSE`. -/
def new_account_row (id : Nat) (login_url password location : String) : Account :=
  { id := id, login_url := login_url, password := password,
    location := location, last_check := none, next_check := none,
    is_blocked := false }

/-- Modelling of `AccountDB.add_account` (lines 59-65): SQLite first
prepares the statement, rejecting it when the VALUES arity does not match
the column list; only a well-formed statement inserts the row. -/
def add_account (rows : List Account) (next_id : Nat)
    (login_url password location : String) : Except String (List Account) :=
  if add_account_stmt.columns.length = add_account_stmt.value_slots then
    Except.ok (rows ++ [new_account_row next_id login_url password location])
  else
    Except.error (sql_insert_mismatch_msg add_account_stmt)

/-- `AccountDB.update_account_status` (lines 96-111): every row whose `id`
matches gets `last_check = now`, the given `next_check` and `is_blocked`. -/
def update_account_status (rows : List Account) (now : Nat) (account_id : Nat)
    (is_blocked : Bool) (next_check : Option Nat) : List Account :=
  rows.map (fun r =>
    if r.id = account_id then
      { r with last_check := some now, next_check := next_check,
               is_blocked := is_blocked }
    else r)

/-- Configuration default `ACCOUNT_DELAY_MINUTES` (line 22). -/
def ACCOUNT_DELAY_MINUTES : Nat := 30

/-- Configuration default `MAX_RETRIES` (line 23). -/
def MAX_RETRIES : Nat := 3

/-- The indicator substring of a numeric rate-limit code. -/
def ind_429 : String := "429"

/-- The indicator phrase of a rate-limit response. -/
def ind_too_many : String := "Too Many Requests"

/-- The console indicator of a blocked cross-origin request. -/
def ind_cors : String := "CORS header"

/-- The console indicator of a failed background request. -/
def ind_http_failure : String := "Http failure response"

/-- A newline, the separator used by the Python `"\n".join`. -/
def newline : String := "\n"

/-- State of `ConsoleMonitor` (lines 118-134): the sticky `_429_detected`
flag and the append-only list of captured console messages. -/
structure ConsoleMonitor where
  _429_detected : Bool
  console_messages : List String
deriving Repr, DecidableEq

/-- The `error_indicators` list of `ConsoleMonitor.handle_console_message`
(line 130). -/
def error_indicators : List String :=
  [ind_429, ind_too_many, ind_cors, ind_http_failure]

/-- `ConsoleMonitor.handle_console_message` (lines 123-134): append the
message to the buffer, and set the sticky flag when the message contains
one of the indicator substrings. -/
def handle_console_message (m : ConsoleMonitor) (msg : String) : ConsoleMonitor :=
  let m1 : ConsoleMonitor :=
    { m with console_messages := m.console_messages ++ [msg] }
  if error_indicators.any (fun ind => strContains msg ind) then
    { m1 with _429_detected := true }
  else m1

/-- Outcome of `page.inner_text("body")`: either the visible body text, or
a thrown Playwright error. -/
inductive PageRead where
  | ok (text : String)
  | err
deriving Repr, DecidableEq

/-- The `error_indicators` list of `is_429_error` (line 193): only the two
page-text indicators. -/
def page_error_indicators : List String := [ind_429, ind_too_many]

/-- `AppointmentChecker.is_429_error` (lines 188-200).  The whole body is
wrapped in `try ... except Exception: return False`, so a failing page
read yields `false` without consulting the sticky flag. -/
def is_429_error (m : ConsoleMonitor) (body : PageRead) : Bool :=
  match body with
  | PageRead.ok text =>
    if page_error_indicators.any (fun ind => strContains text ind) then true
    else m._429_detected
  | PageRead.err => false

/-- Observable state threaded through the checker: the accounts table, the
single `ConsoleMonitor` created in `AppointmentChecker.__init__` (line
139), the Telegram messages sent so far, and the number of
`save_error_page` diagnostic captures attempted so far. -/
structure CheckerState where
  db : List Account
  monitor : ConsoleMonitor
  notifications : List String
  captures : Nat
deriving Repr, DecidableEq

/-- Python's `lst[-10:]` (line 214): the last ten entries (the whole list
when it is shorter). -/
def lastTen (l : List String) : List String :=
  l.drop (l.length - 10)

/-- The part of the `handle_429_error` notification before the console
logs (lines 215-218). -/
def handle_429_header (location : String) : String :=
  "⏳ Обнаружена 429 ошибка в аккаунте для " ++ location ++
    ". Аккаунт приостановлен на " ++ toString ACCOUNT_DELAY_MINUTES ++
    " мин\nПоследние логи консоли:\n"

/-- The part of the `handle_429_error` notification after the console
logs (lines 221-222): present only when `save_error_page` returned the
two capture files. -/
def handle_429_tail : Option (String × String) → String
  | some fp =>
    "\nФайлы для анализа:\nHTML: " ++ fp.1 ++ "\nСкриншот: " ++ fp.2
  | none => ""

/-- The notification text built by `handle_429_error` (lines 213-222);
`files` is the pair returned by `save_error_page`, `none` when the capture
failed. -/
def handle_429_message (location : String) (console_logs : String)
    (files : Option (String × String)) : String :=
  handle_429_header location ++ console_logs ++ handle_429_tail files

/-- `AppointmentChecker.handle_429_error` (lines 202-226): attempt a
diagnostic capture, block the account with `next_check = now +
ACCOUNT_DELAY_MINUTES`, send one notification carrying the last ten
console-buffer lines, clear the sticky flag, and return `True`. -/
def handle_429_error (s : CheckerState) (now : Nat) (acct : Account)
    (files : Option (String × String)) : CheckerState × Bool :=
  let next_check := now + ACCOUNT_DELAY_MINUTES
  let console_logs := String.intercalate newline (lastTen s.monitor.console_messages)
  let message := handle_429_message acct.location console_logs files
  ({ db := update_account_status s.db now acct.id true (some next_check),
     monitor := { s.monitor with _429_detected := false },
     notifications := s.notifications ++ [message],
     captures := s.captures + 1 }, true)

/-- What the environment does on one iteration of the `safe_click` retry
loop (lines 231-255): the pre-click `is_429_error` test fires, or
`wait_for_selector` returns a falsy element, or the element is found and
clicked, or the attempt throws. -/
inductive AttemptEnv where
  | rateLimited
  | notFound
  | found
  | raises (msg : String)
deriving Repr, DecidableEq

/-- How `safe_click` ends: a returned value (`True`, `False` or `None`) or
a re-raised error. -/
inductive ClickResult where
  | ret (b : Option Bool)
  | raise (msg : String)
deriving Repr, DecidableEq

/-- One run of `safe_click`: its result, the indices of the attempts on
which the underlying `element.click()` was actually performed, and whether
`save_error_page` was called. -/
structure ClickRun where
  result : ClickResult
  clicks : List Nat
  captured : Bool
deriving Repr, DecidableEq

/-- The `for attempt in range(retries)` loop of `safe_click`, with `i` the
current attempt index; the list holds the environments of the remaining
attempts, so the Python test `attempt == retries - 1` is "the tail is
empty". -/
def safe_click_go : List AttemptEnv → Nat → ClickRun
  | [], _ => ⟨ClickResult.ret none, [], false⟩
  | AttemptEnv.rateLimited :: _, _ => ⟨ClickResult.ret (some false), [], false⟩
  | AttemptEnv.found :: _, i => ⟨ClickResult.ret (some true), [i], false⟩
  | AttemptEnv.notFound :: rest, i => safe_click_go rest (i + 1)
  | AttemptEnv.raises msg :: rest, i =>
    match rest with
    | [] => ⟨ClickResult.raise msg, [], true⟩
    | _ :: _ => safe_click_go rest (i + 1)

/-- `AppointmentChecker.safe_click` (lines 228-256), driven by one
environment per attempt; the number of attempts (`retries`) is the length
of `envs`. -/
def safe_click (envs : List AttemptEnv) : ClickRun :=
  safe_click_go envs 0

/-- What `perform_login_actions` would yield when the navigation succeeded
without any rate-limit signal: some step returned a soft `False` (the
login attempt is retried), or all steps succeeded. -/
inductive NavThen where
  | actionsFail
  | actionsOk
deriving Repr, DecidableEq

/-- What the environment does on one iteration of the `login` retry loop
(lines 287-320): `page.goto` returns a response (`resp` is its status,
`none` when no response object came back) and the page then reads as
`page`, or the attempt throws `msg`. -/
inductive AttemptOutcome where
  | nav (resp : Option Nat) (page : PageRead) (k : NavThen)
  | raises (msg : String)
deriving Repr, DecidableEq

/-- The failure notification of `login` (lines 311-314); the traceback is
left abstract. -/
def login_failed_message (location : String) (error_msg : String) : String :=
  "Ошибка входа после " ++ toString MAX_RETRIES ++ " попыток для " ++
    location ++ ":\n" ++ error_msg

/-- `AppointmentChecker.login` (lines 282-321), driven by one environment
per attempt (`MAX_RETRIES` of them in the source, the list length here);
returns the updated state and the Boolean the Python function returns.
On a missing response object, a 429 status or a positive `is_429_error`
test it returns `handle_429_error(...)`; a thrown error whose text
contains a rate-limit indicator does the same; a thrown error on the last
attempt captures diagnostics and sends the failure notification. -/
def login (s : CheckerState) (now : Nat) (acct : Account)
    (files : Option (String × String)) :
    List AttemptOutcome → CheckerState × Bool
  | [] => (s, false)
  | AttemptOutcome.nav resp page k :: rest =>
    if resp.isNone || resp == some 429 || is_429_error s.monitor page then
      handle_429_error s now acct files
    else
      match k with
      | NavThen.actionsOk => (s, true)
      | NavThen.actionsFail => login s now acct files rest
  | AttemptOutcome.raises msg :: rest =>
    if strContains msg ind_429 || strContains msg ind_too_many then
      handle_429_error s now acct files
    else
      match rest with
      | [] =>
        ({ s with captures := s.captures + 1,
                  notifications := s.notifications ++
                    [login_failed_message acct.location msg] }, false)
      | _ :: _ => login s now acct files rest

/-- The critical-error notification of `check_account` (lines 419-421);
the traceback is left abstract. -/
def critical_message (location : String) (error_msg : String) : String :=
  "🔥 Критическая ошибка в скрипте для " ++ location ++ ":\n" ++ error_msg

/-- `AppointmentChecker.check_account` (lines 400-424): reset the account
status, then run the probe body (login + slot search, abstracted as a
state transformer that may also raise), and catch any exception it
raises, attempting a capture and sending the critical-error notification.
The function always returns a state: nothing escapes to the caller. -/
def check_account (s : CheckerState) (now : Nat) (acct : Account)
    (body : CheckerState → CheckerState × Option String) : CheckerState :=
  let s1 : CheckerState :=
    { s with db := update_account_status s.db now acct.id false none }
  match body s1 with
  | (s2, none) => s2
  | (s2, some msg) =>
    { s2 with captures := s2.captures + 1,
              notifications := s2.notifications ++
                [critical_message acct.location msg] }

/-- `AppointmentChecker.run_check` (lines 426-440): fetch the eligible
accounts once, then run `check_account` on each in order. -/
def run_check (s : CheckerState) (now : Nat)
    (bodies : Account → CheckerState → CheckerState × Option String) :
    CheckerState :=
  (get_active_accounts s.db now).foldl
    (fun st a => check_account st now a (bodies a)) s

/-- A blocked account whose cooldown timestamp is NULL. -/
def blocked_null_acct : Account :=
  { id := 1, login_url := "u", password := "p", location := "Moscow",
    last_check := none, next_check := none, is_blocked := true }

/-- First seed-style account used in concrete scenarios. -/
def acctA : Account :=
  { id := 1, login_url := "u1", password := "p1", location := "Moscow",
    last_check := none, next_check := none, is_blocked := false }

/-- Second seed-style account used in concrete scenarios. -/
def acctB : Account :=
  { id := 2, login_url := "u2", password := "p2", location := "St Petersburg",
    last_check := none, next_check := none, is_blocked := false }

/-- Checker state at startup with the two seed accounts: the single
`ConsoleMonitor` is fresh. -/
def s0 : CheckerState :=
  { db := [acctA, acctB],
    monitor := { _429_detected := false, console_messages := [] },
    notifications := [], captures := 0 }

/-- A console line matching the `Http failure response` indicator. -/
def consoleLine : String :=
  "Http failure response for https://x: 429 Too Many Requests"

/-- Marker recorded when a later probe observes a detector flag set by an
earlier probe. -/
def leakMark : String := "flag from previous probe observed"

/-- Marker recorded when the later probe sees a clear flag. -/
def noLeakMark : String := "fresh flag"

/-- Probe bodies for the leak scenario: account 1's probe receives one
console event (exactly what `page.on("console", ...)` delivers to the
shared monitor); account 2's probe records whether it observes the sticky
flag at its start. -/
def leakBodies (a : Account) (st : CheckerState) :
    CheckerState × Option String :=
  if a.id = 1 then
    ({ st with monitor := handle_console_message st.monitor consoleLine },
      none)
  else
    ({ st with notifications := st.notifications ++
        [if st.monitor._429_detected then leakMark else noLeakMark] }, none)

/-- A monitor whose sticky flag is already set. -/
def stuckMonitor : ConsoleMonitor :=
  { _429_detected := true, console_messages := [] }

/-- A page body text containing a rate-limit indicator. -/
def pageTextSample : String := "HTTP ERROR 429"

/-- A typical interaction error message without rate-limit indicators. -/
def errMsgA : String := "Timeout 15000ms exceeded"

/-- Another interaction error message without rate-limit indicators. -/
def errMsgB : String := "element is not attached to the DOM"

/-- A buffered console line for the rate-limit handling witness. -/
def lineA : String := "Failed to load resource: 429 (Too Many Requests)"

/-- A second buffered console line. -/
def lineB : String := "retrying request"

/-- Account used in the rate-limit handling witness. -/
def acctW : Account :=
  { id := 7, login_url := "u7", password := "p7", location := "Moscow",
    last_check := some 3, next_check := none, is_blocked := false }

/-- Checker state for the rate-limit handling witness: the sticky flag is
set and two console lines are buffered. -/
def sW2 : CheckerState :=
  { db := [acctW],
    monitor := { _429_detected := true, console_messages := [lineA, lineB] },
    notifications := [], captures := 0 }

/-- The row `acctW` after being blocked at time 50 for 30 minutes. -/
def acctW_blocked : Account :=
  { acctW with
    last_check := some 50
    next_check := some 80
    is_blocked := true }

theorem startsWithChars_self_append (l t : List Char) :
    startsWithChars l (l ++ t) = true := by
  induction l with
  | nil => rfl
  | cons a as ih => simp [startsWithChars, ih]

theorem containsChars_of_starts (pat l : List Char)
    (h : startsWithChars pat l = true) : containsChars pat l = true := by
  cases l with
  | nil => simpa [containsChars] using h
  | cons x xs => simp [containsChars, h]

theorem containsChars_middle (a b c : List Char) :
    containsChars b (a ++ b ++ c) = true := by
  induction a with
  | nil =>
    simpa using containsChars_of_starts b (b ++ c) (startsWithChars_self_append b c)
  | cons x xs ih =>
    simp only [containsChars, List.cons_append, List.append_assoc] at *
    simp [ih]

theorem strContains_middle (a b c : String) :
    strContains (a ++ b ++ c) b = true := by
  have h := containsChars_middle a.data b.data c.data
  simpa [strContains, String.data_append] using h

theorem sqlEligible_iff (a : Account) (now : Nat) :
    sqlEligible a now = true ↔
      (a.is_blocked = false ∨ ∃ t, a.next_check = some t ∧ t ≤ now) := by
  unfold sqlEligible
  rcases h : a.next_check with _ | t <;> cases hb : a.is_blocked <;> simp [h, hb]

theorem update_blocked_row (rows : List Account) (now : Nat) (id0 : Nat)
    (nc : Option Nat) :
    ∀ r ∈ update_account_status rows now id0 true nc, r.id = id0 →
      r.is_blocked = true ∧ r.next_check = nc := by
  intro r hr hid
  simp only [update_account_status, List.mem_map] at hr
  obtain ⟨r0, hr0, heq⟩ := hr
  by_cases h : r0.id = id0
  · rw [if_pos h] at heq
    subst heq
    exact ⟨rfl, rfl⟩
  · rw [if_neg h] at heq
    subst heq
    exact absurd hid h

theorem run_check_notifications (now : Nat)
    (f : Account → CheckerState → CheckerState × Option String)
    (g : Account → String)
    (hf : ∀ a st, (check_account st now a (f a)).notifications
        = st.notifications ++ [g a]) :
    ∀ (l : List Account) (s : CheckerState),
      (l.foldl (fun st a => check_account st now a (f a)) s).notifications
        = s.notifications ++ l.map g := by
  intro l
  induction l with
  | nil => intro s; simp
  | cons a t ih =>
    intro s
    simp only [List.foldl_cons, List.map_cons]
    rw [ih, hf]
    simp

theorem safe_click_go_abort (pre rest : List AttemptEnv)
    (h : ∀ e ∈ pre, e = AttemptEnv.notFound ∨ ∃ m, e = AttemptEnv.raises m) :
    ∀ k, safe_click_go (pre ++ AttemptEnv.rateLimited :: rest) k
      = ⟨ClickResult.ret (some false), [], false⟩ := by
  induction pre with
  | nil => intro k; rfl
  | cons e pre2 ih =>
    intro k
    have he := h e (List.mem_cons_self e pre2)
    have h2 : ∀ x ∈ pre2, x = AttemptEnv.notFound ∨ ∃ m, x = AttemptEnv.raises m :=
      fun x hx => h x (List.mem_cons_of_mem e hx)
    rcases he with he | ⟨m, he⟩ <;> subst he
    · simp only [List.cons_append, safe_click_go]
      exact ih h2 (k + 1)
    · cases pre2 with
      | nil => rfl
      | cons p ps =>
        simp only [List.cons_append, safe_click_go]
        exact ih h2 (k + 1)

theorem safe_click_go_clicks (envs : List AttemptEnv) :
    ∀ k i, i ∈ (safe_click_go envs k).clicks →
      ∃ j, i = k + j ∧ envs[j]? = some AttemptEnv.found := by
  induction envs with
  | nil => intro k i h; simp [safe_click_go] at h
  | cons e rest ih =>
    intro k i h
    cases e with
    | rateLimited => simp [safe_click_go] at h
    | found =>
      simp [safe_click_go] at h
      exact ⟨0, by omega, by simp⟩
    | notFound =>
      simp only [safe_click_go] at h
      obtain ⟨j, hj, hg⟩ := ih (k + 1) i h
      exact ⟨j + 1, by omega, by simpa using hg⟩
    | raises m =>
      cases rest with
      | nil => simp [safe_click_go] at h
      | cons r rs =>
        simp only [safe_click_go] at h
        obtain ⟨j, hj, hg⟩ := ih (k + 1) i h
        exact ⟨j + 1, by omega, by simpa using hg⟩

theorem safe_click_go_raises (msgs : List String) (m : String)
    (h : msgs.getLast? = some m) :
    ∀ k, safe_click_go (msgs.map AttemptEnv.raises) k
      = ⟨ClickResult.raise m, [], true⟩ := by
  induction msgs with
  | nil => simp at h
  | cons x t ih =>
    intro k
    cases t with
    | nil =>
      simp only [List.getLast?_singleton, Option.some.injEq] at h
      subst h
      rfl
    | cons y ts =>
      rw [List.getLast?_cons_cons] at h
      simp only [List.map_cons, safe_click_go]
      exact ih h (k + 1)

theorem safe_click_go_notFound (n : Nat) :
    ∀ k, safe_click_go (List.replicate n AttemptEnv.notFound) k
      = ⟨ClickResult.ret none, [], false⟩ := by
  induction n with
  | zero => intro k; rfl
  | succ n ih =>
    intro k
    simp only [List.replicate_succ, safe_click_go]
    exact ih (k + 1)

/-- Claim C1, counterexample: the account `blocked_null_acct` is blocked
with a NULL `next_check`; the spec's wording ("null means eligible
immediately", so a blocked account with null `next_check` is eligible)
accepts it, yet `get_active_accounts` returns the empty list, because the
SQL comparison `next_check <= now` is not satisfied by NULL. -/
theorem get_active_accounts_blocked_null_excluded :
    blocked_null_acct.is_blocked = true ∧
    blocked_null_acct.next_check = none ∧
    spec_eligible blocked_null_acct 100 = true ∧
    get_active_accounts [blocked_null_acct] 100 = [] :=
  ⟨rfl, rfl, rfl, rfl⟩

/-- Claim C1 (amended): `get_active_accounts` includes a row if and only
if the row is in the table and either `is_blocked` is false, or
`next_check` is non-NULL and at most `now`; in particular a blocked
account with NULL `next_check` is not eligible. -/
theorem get_active_accounts_eligibility (rows : List Account) (now : Nat)
    (a : Account) :
    a ∈ get_active_accounts rows now ↔
      a ∈ rows ∧
        (a.is_blocked = false ∨ ∃ t, a.next_check = some t ∧ t ≤ now) := by
  unfold get_active_accounts
  rw [(List.perm_insertionSort lastCheckRel _).mem_iff, List.mem_filter,
    sqlEligible_iff]

/-- Witness for the amended claim C1 at a concrete table and time. -/
theorem get_active_accounts_eligibility_witness :
    acctA ∈ get_active_accounts [acctA] 7 ↔
      acctA ∈ [acctA] ∧
        (acctA.is_blocked = false ∨ ∃ t, acctA.next_check = some t ∧ t ≤ 7) :=
  get_active_accounts_eligibility [acctA] 7 acctA

/-- Claim C2 (code bug): `add_account` never inserts a row — for every
table and every argument triple it fails with the SQLite arity error,
because the source INSERT lists three columns but four `?` placeholders. -/
theorem add_account_always_fails (rows : List Account) (next_id : Nat)
    (u p loc : String) :
    add_account rows next_id u p loc
      = Except.error (sql_insert_mismatch_msg add_account_stmt) := rfl

/-- Claim C3, counterexample: the sticky flag is set, but `is_429_error`
returns `false` when the page text cannot be read, since the `except`
clause swallows the error before the flag is consulted. -/
theorem is_429_error_unreadable_page :
    stuckMonitor._429_detected = true ∧
    is_429_error stuckMonitor PageRead.err = false :=
  ⟨rfl, rfl⟩

/-- Claim C3 (amended): `is_429_error` returns true iff the page text was
read successfully AND (it contains "429", or it contains "Too Many
Requests", or the sticky flag is set); when reading the page text throws,
it returns false regardless of the sticky flag. -/
theorem is_429_error_characterization (m : ConsoleMonitor) (b : PageRead) :
    is_429_error m b = true ↔
      ∃ text, b = PageRead.ok text ∧
        (strContains text ind_429 = true ∨
          strContains text ind_too_many = true ∨
          m._429_detected = true) := by
  cases b with
  | err => simp [is_429_error]
  | ok t =>
    rcases h1 : strContains t ind_429 <;>
      rcases h2 : strContains t ind_too_many <;>
      rcases h3 : m._429_detected <;>
      simp [is_429_error, page_error_indicators, h1, h2, h3]

/-- Witness for the amended claim C3 at a concrete monitor and page. -/
theorem is_429_error_characterization_witness :
    is_429_error stuckMonitor (PageRead.ok pageTextSample) = true ↔
      ∃ text, PageRead.ok pageTextSample = PageRead.ok text ∧
        (strContains text ind_429 = true ∨
          strContains text ind_too_many = true ∨
          stuckMonitor._429_detected = true) :=
  is_429_error_characterization stuckMonitor (PageRead.ok pageTextSample)

/-- Claim C4: `safe_click` never performs the underlying click on an
attempt at which the rate-limit check fires.  First conjunct: when every
earlier attempt only failed to find the element or threw without being
last, the attempt at which the detector reports rate-limiting returns the
abort value `False` immediately, with no click and no capture.  Second
conjunct: a click is only ever performed on an attempt whose environment
actually found the element — never on a rate-limited attempt. -/
theorem safe_click_respects_rate_limit :
    (∀ (pre rest : List AttemptEnv),
      (∀ e ∈ pre, e = AttemptEnv.notFound ∨ ∃ m, e = AttemptEnv.raises m) →
      safe_click (pre ++ AttemptEnv.rateLimited :: rest)
        = ⟨ClickResult.ret (some false), [], false⟩) ∧
    (∀ (envs : List AttemptEnv) (i : Nat),
      i ∈ (safe_click envs).clicks → envs[i]? = some AttemptEnv.found) := by
  constructor
  · intro pre rest h
    exact safe_click_go_abort pre rest h 0
  · intro envs i h
    obtain ⟨j, hj, hg⟩ := safe_click_go_clicks envs 0 i h
    simpa [hj] using hg

/-- Witness for claim C4: a concrete run that misses the element once and
is rate-limited on the second attempt aborts with `False`, and in a run
that clicks, the clicked attempt is one that found the element. -/
theorem safe_click_respects_rate_limit_witness :
    safe_click [AttemptEnv.notFound, AttemptEnv.rateLimited]
      = ⟨ClickResult.ret (some false), [], false⟩ ∧
    [AttemptEnv.notFound, AttemptEnv.found][1]? = some AttemptEnv.found :=
  ⟨safe_click_respects_rate_limit.1 [AttemptEnv.notFound] []
    (by intro e he; rw [List.mem_singleton] at he; exact Or.inl he),
   safe_click_respects_rate_limit.2 [AttemptEnv.notFound, AttemptEnv.found] 1
    (by simp [safe_click, safe_click_go])⟩

/-- Claim C5: hard versus soft failure of `safe_click`.  If every attempt
throws, the run captures a diagnostic snapshot and re-raises the last
error (it does not return `False`); if the element is simply never found,
the run returns the soft `None` with no capture and no raised error. -/
theorem safe_click_hard_vs_soft :
    (∀ (msgs : List String) (m : String), msgs.getLast? = some m →
      safe_click (msgs.map AttemptEnv.raises)
        = ⟨ClickResult.raise m, [], true⟩) ∧
    (∀ n : Nat, safe_click (List.replicate n AttemptEnv.notFound)
      = ⟨ClickResult.ret none, [], false⟩) :=
  ⟨fun msgs m h => safe_click_go_raises msgs m h 0,
   fun n => safe_click_go_notFound n 0⟩

/-- Witness for claim C5 at concrete error messages and retry counts. -/
theorem safe_click_hard_vs_soft_witness :
    safe_click [AttemptEnv.raises errMsgA, AttemptEnv.raises errMsgB]
      = ⟨ClickResult.raise errMsgB, [], true⟩ ∧
    safe_click (List.replicate 3 AttemptEnv.notFound)
      = ⟨ClickResult.ret none, [], false⟩ :=
  ⟨safe_click_hard_vs_soft.1 [errMsgA, errMsgB] errMsgB rfl,
   safe_click_hard_vs_soft.2 3⟩

/-- Claim C6: handling a rate limit (i) blocks every matching account row
with `next_check = now + ACCOUNT_DELAY_MINUTES`, (ii) sends exactly one
notification, which contains the joined last ten console-buffer lines,
(iii) attempts exactly one diagnostic capture, (iv) clears the sticky
flag, (v) is terminal for the login loop — the `handle_429_error` branch
returns at once, independent of the remaining attempts — and (vi) the
scheduler cycle probes each eligible account exactly once, so no further
probe of the account happens in the cycle. -/
theorem handle_429_error_spec (s : CheckerState) (now : Nat) (acct : Account)
    (files : Option (String × String)) :
    (∀ r ∈ ((handle_429_error s now acct files).1).db, r.id = acct.id →
      r.is_blocked = true ∧
        r.next_check = some (now + ACCOUNT_DELAY_MINUTES)) ∧
    (∃ msg, ((handle_429_error s now acct files).1).notifications
        = s.notifications ++ [msg] ∧
      strContains msg
        (String.intercalate newline (lastTen s.monitor.console_messages))
        = true) ∧
    ((handle_429_error s now acct files).1).captures = s.captures + 1 ∧
    ((handle_429_error s now acct files).1).monitor._429_detected = false ∧
    (∀ (page : PageRead) (k : NavThen) (rest : List AttemptOutcome),
      login s now acct files (AttemptOutcome.nav (some 429) page k :: rest)
        = handle_429_error s now acct files) ∧
    (∀ (marks : Nat → String) (s2 : CheckerState) (now2 : Nat),
      (run_check s2 now2 (fun a st =>
          ({ st with notifications := st.notifications ++ [marks a.id] },
            none))).notifications
        = s2.notifications
            ++ (get_active_accounts s2.db now2).map (fun a => marks a.id)) := by
  refine ⟨?_, ?_, rfl, rfl, ?_, ?_⟩
  · exact update_blocked_row s.db now acct.id (some (now + ACCOUNT_DELAY_MINUTES))
  · refine ⟨handle_429_message acct.location
      (String.intercalate newline (lastTen s.monitor.console_messages)) files,
      rfl, ?_⟩
    exact strContains_middle (handle_429_header acct.location)
      (String.intercalate newline (lastTen s.monitor.console_messages))
      (handle_429_tail files)
  · intro page k rest
    rfl
  · intro marks s2 now2
    have hf : ∀ a st,
        (check_account st now2 a (fun st2 =>
          ({ st2 with notifications := st2.notifications ++ [marks a.id] },
            none))).notifications
          = st.notifications ++ [marks a.id] := by
      intro a st
      rfl
    simpa [run_check] using
      run_check_notifications now2
        (fun a st2 =>
          ({ st2 with notifications := st2.notifications ++ [marks a.id] },
            none))
        (fun a => marks a.id) hf (get_active_accounts s2.db now2) s2

/-- Witness for claim C6: handling a rate limit at time 50 for account 7
blocks its row until 80 = 50 + 30, records one capture and clears the
sticky flag. -/
theorem handle_429_error_spec_witness :
    (∃ r, r ∈ ((handle_429_error sW2 50 acctW none).1).db ∧
      r.is_blocked = true ∧ r.next_check = some 80) ∧
    ((handle_429_error sW2 50 acctW none).1).captures = 1 ∧
    ((handle_429_error sW2 50 acctW none).1).monitor._429_detected = false := by
  have h := handle_429_error_spec sW2 50 acctW none
  have hm : acctW_blocked ∈ ((handle_429_error sW2 50 acctW none).1).db := by
    decide
  exact ⟨⟨acctW_blocked, hm, (h.1 _ hm (by decide)).1, (h.1 _ hm (by decide)).2⟩,
    h.2.2.1, h.2.2.2.1⟩

/-- Claim C7: the sequence returned by `get_active_accounts` is sorted
under the `ORDER BY last_check ASC` relation, which is non-decreasing on
timestamps and places NULL (never-checked) rows before every non-NULL
row: the second conjunct shows the relation never lets a non-NULL key
precede a NULL key. -/
theorem get_active_accounts_sorted (rows : List Account) (now : Nat) :
    List.Sorted lastCheckRel (get_active_accounts rows now) ∧
    (∀ a b : Account, lastCheckRel a b → b.last_check = none →
      a.last_check = none) := by
  constructor
  · exact List.sorted_insertionSort lastCheckRel _
  · intro a b hab hb
    rcases ha : a.last_check with _ | x
    · rfl
    · unfold lastCheckRel at hab
      rw [ha, hb] at hab
      simp [lastCheckLeB] at hab

/-- Witness for claim C7 at a concrete table, with the relation hypothesis
discharged on two concrete never-checked accounts. -/
theorem get_active_accounts_sorted_witness :
    List.Sorted lastCheckRel (get_active_accounts [acctB, acctA] 0) ∧
    acctA.last_check = none :=
  ⟨(get_active_accounts_sorted [acctB, acctA] 0).1,
    (get_active_accounts_sorted [acctB, acctA] 0).2 acctA acctB rfl rfl⟩

/-- Claim C8, counterexample: starting from a fresh monitor, the probe of
account 1 receives one console event; the probe of account 2 — in the
same cycle, in a new browser session — still observes the sticky flag
(recording `leakMark`) and the buffered line is still present, refuting
"a detection (or buffered messages) from one account's probe can never be
observed by a later account's probe". -/
theorem monitor_leaks_across_probes :
    s0.monitor._429_detected = false ∧
    s0.monitor.console_messages = [] ∧
    (run_check s0 0 leakBodies).notifications = [leakMark] ∧
    (run_check s0 0 leakBodies).monitor.console_messages = [consoleLine] :=
  ⟨rfl, rfl, rfl, rfl⟩

/-- Claim C8 (amended): the detector state is checker-scoped, not
session-scoped: `check_account` hands the next probe exactly the monitor
state the previous probe left behind (whether or not that probe raised),
never a fresh one, and `handle_429_error` clears only the flag, never the
message buffer. -/
theorem check_account_shares_monitor (s : CheckerState) (now : Nat)
    (acct : Account) (f : ConsoleMonitor → ConsoleMonitor)
    (exc : Option String) (files : Option (String × String)) :
    (check_account s now acct
        (fun st => ({ st with monitor := f st.monitor }, exc))).monitor
      = f s.monitor ∧
    ((handle_429_error s now acct files).1).monitor.console_messages
      = s.monitor.console_messages := by
  constructor
  · cases exc <;> rfl
  · rfl

/-- Claim C9: errors never cross an account boundary.  Even when the
probe of every eligible account raises, `run_check` completes the whole
cycle: every eligible account is processed in order and each failure is
converted into its critical-error notification by `check_account`'s
handler, so the loop reaches the end of the list. -/
theorem run_check_isolates_errors (s : CheckerState) (now : Nat)
    (msgs : Account → String) :
    (run_check s now (fun a st => (st, some (msgs a)))).notifications
      = s.notifications
          ++ (get_active_accounts s.db now).map
            (fun a => critical_message a.location (msgs a)) := by
  have hf : ∀ a st,
      (check_account st now a (fun st2 => (st2, some (msgs a)))).notifications
        = st.notifications ++ [critical_message a.location (msgs a)] := by
    intro a st
    rfl
  simpa [run_check] using
    run_check_notifications now (fun a st2 => (st2, some (msgs a)))
      (fun a => critical_message a.location (msgs a)) hf
      (get_active_accounts s.db now) s

/-- Claim C10: when `page.goto` returns no response object at all, `login`
behaves exactly as on rate-limiting: it returns `handle_429_error(...)`
immediately (independent of any remaining attempts), the account's rows
are blocked with `next_check = now + ACCOUNT_DELAY_MINUTES`, and exactly
one notification is sent. -/
theorem login_no_response_rate_limits (s : CheckerState) (now : Nat)
    (acct : Account) (files : Option (String × String)) (page : PageRead)
    (k : NavThen) (rest : List AttemptOutcome) :
    login s now acct files (AttemptOutcome.nav none page k :: rest)
        = handle_429_error s now acct files ∧
    (∀ r ∈ ((login s now acct files
        (AttemptOutcome.nav none page k :: rest)).1).db,
      r.id = acct.id → r.is_blocked = true ∧
        r.next_check = some (now + ACCOUNT_DELAY_MINUTES)) ∧
    (∃ msg, ((login s now acct files
        (AttemptOutcome.nav none page k :: rest)).1).notifications
      = s.notifications ++ [msg]) := by
  refine ⟨rfl, ?_, ?_⟩
  · exact update_blocked_row s.db now acct.id (some (now + ACCOUNT_DELAY_MINUTES))
  · exact ⟨handle_429_message acct.location
      (String.intercalate newline (lastTen s.monitor.console_messages)) files,
      rfl⟩

/-- Witness for claim C10: a navigation with no response object at time
50 blocks account 7 until 80. -/
theorem login_no_response_rate_limits_witness :
    login sW2 50 acctW none
        [AttemptOutcome.nav none PageRead.err NavThen.actionsOk]
      = handle_429_error sW2 50 acctW none ∧
    (∃ r, r ∈ ((login sW2 50 acctW none
        [AttemptOutcome.nav none PageRead.err NavThen.actionsOk]).1).db ∧
      r.is_blocked = true ∧ r.next_check = some 80) := by
  have h := login_no_response_rate_limits sW2 50 acctW none PageRead.err
    NavThen.actionsOk []
  have hm : acctW_blocked ∈ ((login sW2 50 acctW none
      [AttemptOutcome.nav none PageRead.err NavThen.actionsOk]).1).db := by
    rw [h.1]
    decide
  exact ⟨h.1, ⟨acctW_blocked, hm, (h.2.1 _ hm (by decide)).1,
    (h.2.1 _ hm (by decide)).2⟩⟩
